import Mathlib

/-!
Shallow embedding of the computational core of `handouts/handout_01.ipynb`:
the fixed-grid Runge-Kutta-Fehlberg integrator `rk45`, the catalysis
right-hand side `f_catalysis`, and the Monte Carlo sampling loop of
`plot_samples`.

Modelling conventions.

Double-precision arithmetic is idealised as exact rational arithmetic (`ℚ`).
The numeric coefficient constants of `rk45` are embedded as the exact values
of the decimal literals written in the source (16 significant decimal
digits).  They realise the classical Butcher-tableau fractions named in the
adjacent source comments at that precision: exactly where the fraction has
a terminating decimal expansion, and to within one unit in the sixteenth
significant digit otherwise (the C1 theorem states the bounds).  Behaviour
that lives in the low-order bits of individual binary64 operations — below
the resolution of the real-arithmetic idealisation — is outside the scope
of this model, and no statement below rests on it.

A NumPy 1-D array of float64 is a `List ℚ`.  Elementwise addition of two
arrays raises a broadcast error when the lengths differ and neither operand
has length 1, which is modelled by `vadd` returning `none`; NumPy length-1
broadcasting is not modelled, and every statement below about the error
path carries hypotheses excluding length-1 operands, so that no statement
is made about inputs that would trigger broadcasting.  A Python exception
escaping a function is modelled by the function returning `none`
(`Option`): no value at all is returned to the caller.

The right-hand-side function `f` of the source has signature
`f(y, t, *args)` with `args = (kappa,)`; it is modelled as
`List ℚ → ℚ → List ℚ → List ℚ` taking the state, the time and the parameter
vector.  Lean functions are total and pure, which matches the source
functions considered here (they allocate a fresh output array and mutate
nothing).
-/

set_option linter.unusedVariables false

namespace Handout01

/-- NumPy elementwise addition of two 1-D arrays, modelled on the
no-broadcast region: when the lengths agree it adds componentwise, and on
a length mismatch it returns `none` (the broadcast error NumPy raises when
neither operand has length 1).  When one operand has length 1 real NumPy
broadcasts instead of raising; that region is not modelled, and every
statement below about the error path carries explicit hypotheses keeping
both operands away from length 1. -/
def vadd (a b : List ℚ) : Option (List ℚ) :=
  if a.length = b.length then some (List.zipWith (· + ·) a b) else none

/-- Total elementwise addition, the value `vadd` takes on equal lengths. -/
def addv (a b : List ℚ) : List ℚ :=
  List.zipWith (· + ·) a b

/-- NumPy scalar-times-array multiplication. -/
def smul (c : ℚ) (v : List ℚ) : List ℚ :=
  v.map (fun x => c * x)

/-! Coefficients of `rk45`, embedded as the exact rational values of the
decimal literals in the source.  The source comment naming the intended
fraction is reproduced after each constant. -/

/-- Source literal `2.500000000000000e-01`.  Source comment: 1/4. -/
def c20 : ℚ := 0.25
/-- Source literal `3.750000000000000e-01`.  Source comment: 3/8. -/
def c30 : ℚ := 0.375
/-- Source literal `9.230769230769231e-01`.  Source comment: 12/13. -/
def c40 : ℚ := 0.9230769230769231
/-- Source literal `1.000000000000000e+00` (defined but unused: the k5 stage
time is written `t[i] + h` directly).  Source comment: 1. -/
def c50 : ℚ := 1.0
/-- Source literal `5.000000000000000e-01`.  Source comment: 1/2. -/
def c60 : ℚ := 0.5

/-- Source literal `2.500000000000000e-01`.  Source comment: 1/4. -/
def c21 : ℚ := 0.25
/-- Source literal `9.375000000000000e-02`.  Source comment: 3/32. -/
def c31 : ℚ := 0.09375
/-- Source literal `2.812500000000000e-01`.  Source comment: 9/32. -/
def c32 : ℚ := 0.28125
/-- Source literal `8.793809740555303e-01`.  Source comment: 1932/2197. -/
def c41 : ℚ := 0.8793809740555303
/-- Source literal `-3.277196176604461e+00`.  Source comment: -7200/2197. -/
def c42 : ℚ := -3.277196176604461
/-- Source literal `3.320892125625853e+00`.  Source comment: 7296/2197. -/
def c43 : ℚ := 3.320892125625853
/-- Source literal `2.032407407407407e+00`.  Source comment: 439/216. -/
def c51 : ℚ := 2.032407407407407
/-- Source literal `-8.000000000000000e+00`.  Source comment: -8. -/
def c52 : ℚ := -8.0
/-- Source literal `7.173489278752436e+00`.  Source comment: 3680/513. -/
def c53 : ℚ := 7.173489278752436
/-- Source literal `-2.058966861598441e-01`.  Source comment: -845/4104. -/
def c54 : ℚ := -0.2058966861598441
/-- Source literal `-2.962962962962963e-01`.  Source comment: -8/27. -/
def c61 : ℚ := -0.2962962962962963
/-- Source literal `2.000000000000000e+00`.  Source comment: 2. -/
def c62 : ℚ := 2.0
/-- Source literal `-1.381676413255361e+00`.  Source comment: -3544/2565. -/
def c63 : ℚ := -1.381676413255361
/-- Source literal `4.529727095516569e-01`.  Source comment: 1859/4104. -/
def c64 : ℚ := 0.4529727095516569
/-- Source literal `-2.750000000000000e-01`.  Source comment: -11/40. -/
def c65 : ℚ := -0.275

/-- Source literal `1.157407407407407e-01`.  Source comment: 25/216. -/
def a1 : ℚ := 0.1157407407407407
/-- Source literal `0.000000000000000e-00` (defined but unused).  Source
comment: 0. -/
def a2 : ℚ := 0.0
/-- Source literal `5.489278752436647e-01`.  Source comment: 1408/2565. -/
def a3 : ℚ := 0.5489278752436647
/-- Source literal `5.353313840155945e-01`.  Source comment: 2197/4104. -/
def a4 : ℚ := 0.5353313840155945
/-- Source literal `-2.000000000000000e-01`.  Source comment: -1/5. -/
def a5 : ℚ := -0.2

/-- Source literal `1.185185185185185e-01`.  Source comment: 16.0/135.0. -/
def b1 : ℚ := 0.1185185185185185
/-- Source literal `0.000000000000000e-00` (defined but unused).  Source
comment: 0. -/
def b2 : ℚ := 0.0
/-- Source literal `5.189863547758284e-01`.  Source comment: 6656.0/12825.0. -/
def b3 : ℚ := 0.5189863547758284
/-- Source literal `5.061314903420167e-01`.  Source comment: 28561.0/56430.0. -/
def b4 : ℚ := 0.5061314903420167
/-- Source literal `-1.800000000000000e-01`.  Source comment: -9.0/50.0. -/
def b5 : ℚ := -0.18
/-- Source literal `3.636363636363636e-02`.  Source comment: 2.0/55.0. -/
def b6 : ℚ := 0.03636363636363636

/-- One loop iteration of `rk45`, with the fifth-order weight row passed as
parameters `B1 .. B6` (instantiated with `b1 .. b6` in `rk45` itself).  It
evaluates the six stages `k1 .. k6`, computes the fourth-order update
`y[i] + a1*k1 + a3*k3 + a4*k4 + a5*k5` in source order (left-associated
array additions) and then the fifth-order estimate
`y5 = y[i] + B1*k1 + B3*k3 + B4*k4 + B5*k5 + B6*k6` exactly as the source
does (the source never reads `y5`; its computation can still raise, which is
why its failure still fails the step in the model).  Any broadcast failure
makes the whole step fail, modelling the Python exception. -/
def rk45StepGen (B1 B2 B3 B4 B5 B6 : ℚ) (f : List ℚ → ℚ → List ℚ → List ℚ)
    (args : List ℚ) (y : List ℚ) (ti h : ℚ) : Option (List ℚ) :=
  let k1 := smul h (f y ti args)
  match vadd y (smul c21 k1) with
  | none => none
  | some s2 =>
  let k2 := smul h (f s2 (ti + c20 * h) args)
  match vadd y (smul c31 k1) with
  | none => none
  | some s31 =>
  match vadd s31 (smul c32 k2) with
  | none => none
  | some s3 =>
  let k3 := smul h (f s3 (ti + c30 * h) args)
  match vadd y (smul c41 k1) with
  | none => none
  | some s41 =>
  match vadd s41 (smul c42 k2) with
  | none => none
  | some s42 =>
  match vadd s42 (smul c43 k3) with
  | none => none
  | some s4 =>
  let k4 := smul h (f s4 (ti + c40 * h) args)
  match vadd y (smul c51 k1) with
  | none => none
  | some s51 =>
  match vadd s51 (smul c52 k2) with
  | none => none
  | some s52 =>
  match vadd s52 (smul c53 k3) with
  | none => none
  | some s53 =>
  match vadd s53 (smul c54 k4) with
  | none => none
  | some s5 =>
  let k5 := smul h (f s5 (ti + h) args)
  match vadd y (smul c61 k1) with
  | none => none
  | some s61 =>
  match vadd s61 (smul c62 k2) with
  | none => none
  | some s62 =>
  match vadd s62 (smul c63 k3) with
  | none => none
  | some s63 =>
  match vadd s63 (smul c64 k4) with
  | none => none
  | some s64 =>
  match vadd s64 (smul c65 k5) with
  | none => none
  | some s6 =>
  let k6 := smul h (f s6 (ti + c60 * h) args)
  match vadd y (smul a1 k1) with
  | none => none
  | some u1 =>
  match vadd u1 (smul a3 k3) with
  | none => none
  | some u3 =>
  match vadd u3 (smul a4 k4) with
  | none => none
  | some u4 =>
  match vadd u4 (smul a5 k5) with
  | none => none
  | some ynext =>
  match vadd y (smul B1 k1) with
  | none => none
  | some v1 =>
  match vadd v1 (smul B3 k3) with
  | none => none
  | some v3 =>
  match vadd v3 (smul B4 k4) with
  | none => none
  | some v4 =>
  match vadd v4 (smul B5 k5) with
  | none => none
  | some v5 =>
  match vadd v5 (smul B6 k6) with
  | none => none
  | some _y5 =>
  some ynext

/-- The loop of `rk45`: given the current row `y`, the current grid point
`tcur` and the remaining grid points, produce the rows from the current one
on.  Each iteration advances over `h = t[i+1] - t[i]`. -/
def rk45GoGen (B1 B2 B3 B4 B5 B6 : ℚ) (f : List ℚ → ℚ → List ℚ → List ℚ)
    (args : List ℚ) : List ℚ → ℚ → List ℚ → Option (List (List ℚ))
  | y, _, [] => some [y]
  | y, tcur, tnext :: rest =>
    match rk45StepGen B1 B2 B3 B4 B5 B6 f args y tcur (tnext - tcur) with
    | none => none
    | some ynext =>
      match rk45GoGen B1 B2 B3 B4 B5 B6 f args ynext tnext rest with
      | none => none
      | some tail => some (y :: tail)

/-- Translation of `rk45(f, y0, t, args)` with the fifth-order weight row as
parameters.  The source allocates `y = np.array([y0] * n)` (so an empty grid
yields an empty trajectory, and the loop `for i in xrange(n - 1)` does not
execute for `n < 2`) and row 0 is never written by the loop. -/
def rk45Gen (B1 B2 B3 B4 B5 B6 : ℚ) (f : List ℚ → ℚ → List ℚ → List ℚ)
    (y0 : List ℚ) (t : List ℚ) (args : List ℚ) : Option (List (List ℚ)) :=
  match t with
  | [] => some []
  | t0 :: rest => rk45GoGen B1 B2 B3 B4 B5 B6 f args y0 t0 rest

/-- Translation of `rk45(f, y0, t, args)` from the source, with the actual
fifth-order weights `b1 .. b6`. -/
def rk45 (f : List ℚ → ℚ → List ℚ → List ℚ) (y0 : List ℚ) (t : List ℚ)
    (args : List ℚ) : Option (List (List ℚ)) :=
  rk45Gen b1 b2 b3 b4 b5 b6 f y0 t args

/-- Variant of the `rk45` step with the line computing the fifth-order
estimate `y5` removed; everything else, including the `k6` stage evaluation,
is unchanged. -/
def rk45TrimStep (f : List ℚ → ℚ → List ℚ → List ℚ) (args : List ℚ)
    (y : List ℚ) (ti h : ℚ) : Option (List ℚ) :=
  let k1 := smul h (f y ti args)
  match vadd y (smul c21 k1) with
  | none => none
  | some s2 =>
  let k2 := smul h (f s2 (ti + c20 * h) args)
  match vadd y (smul c31 k1) with
  | none => none
  | some s31 =>
  match vadd s31 (smul c32 k2) with
  | none => none
  | some s3 =>
  let k3 := smul h (f s3 (ti + c30 * h) args)
  match vadd y (smul c41 k1) with
  | none => none
  | some s41 =>
  match vadd s41 (smul c42 k2) with
  | none => none
  | some s42 =>
  match vadd s42 (smul c43 k3) with
  | none => none
  | some s4 =>
  let k4 := smul h (f s4 (ti + c40 * h) args)
  match vadd y (smul c51 k1) with
  | none => none
  | some s51 =>
  match vadd s51 (smul c52 k2) with
  | none => none
  | some s52 =>
  match vadd s52 (smul c53 k3) with
  | none => none
  | some s53 =>
  match vadd s53 (smul c54 k4) with
  | none => none
  | some s5 =>
  let k5 := smul h (f s5 (ti + h) args)
  match vadd y (smul c61 k1) with
  | none => none
  | some s61 =>
  match vadd s61 (smul c62 k2) with
  | none => none
  | some s62 =>
  match vadd s62 (smul c63 k3) with
  | none => none
  | some s63 =>
  match vadd s63 (smul c64 k4) with
  | none => none
  | some s64 =>
  match vadd s64 (smul c65 k5) with
  | none => none
  | some s6 =>
  let _k6 := smul h (f s6 (ti + c60 * h) args)
  match vadd y (smul a1 k1) with
  | none => none
  | some u1 =>
  match vadd u1 (smul a3 k3) with
  | none => none
  | some u3 =>
  match vadd u3 (smul a4 k4) with
  | none => none
  | some u4 =>
  match vadd u4 (smul a5 k5) with
  | none => none
  | some ynext =>
  some ynext

/-- Loop of the trimmed variant of `rk45`. -/
def rk45TrimGo (f : List ℚ → ℚ → List ℚ → List ℚ) (args : List ℚ) :
    List ℚ → ℚ → List ℚ → Option (List (List ℚ))
  | y, _, [] => some [y]
  | y, tcur, tnext :: rest =>
    match rk45TrimStep f args y tcur (tnext - tcur) with
    | none => none
    | some ynext =>
      match rk45TrimGo f args ynext tnext rest with
      | none => none
      | some tail => some (y :: tail)

/-- Variant integrator with the fifth-order combination removed. -/
def rk45Trim (f : List ℚ → ℚ → List ℚ → List ℚ) (y0 : List ℚ) (t : List ℚ)
    (args : List ℚ) : Option (List (List ℚ)) :=
  match t with
  | [] => some []
  | t0 :: rest => rk45TrimGo f args y0 t0 rest

/-- The value a successful `rk45` step takes: the same stage and update
computations as `rk45StepGen`, written with the total addition `addv` (on a
valid call every elementwise addition succeeds, see the lemmas below).  The
stage `k6` is evaluated by the source but does not enter the returned
fourth-order update. -/
def rk45StepR (f : List ℚ → ℚ → List ℚ → List ℚ) (args : List ℚ)
    (y : List ℚ) (ti h : ℚ) : List ℚ :=
  let k1 := smul h (f y ti args)
  let k2 := smul h (f (addv y (smul c21 k1)) (ti + c20 * h) args)
  let k3 := smul h
    (f (addv (addv y (smul c31 k1)) (smul c32 k2)) (ti + c30 * h) args)
  let k4 := smul h
    (f (addv (addv (addv y (smul c41 k1)) (smul c42 k2)) (smul c43 k3))
      (ti + c40 * h) args)
  let k5 := smul h
    (f (addv (addv (addv (addv y (smul c51 k1)) (smul c52 k2)) (smul c53 k3))
        (smul c54 k4))
      (ti + h) args)
  addv (addv (addv (addv y (smul a1 k1)) (smul a3 k3)) (smul a4 k4))
    (smul a5 k5)

/-- The list of rows a successful `rk45` run produces, written as a total
recursion: row 0 is the current state, and each next row advances the
previous one by `rk45StepR` over `h = t[i+1] - t[i]`. -/
def rk45GoR (f : List ℚ → ℚ → List ℚ → List ℚ) (args : List ℚ) :
    List ℚ → ℚ → List ℚ → List (List ℚ)
  | y, _, [] => [y]
  | y, tcur, tnext :: rest =>
    y :: rk45GoR f args (rk45StepR f args y tcur (tnext - tcur)) tnext rest

/-- Validity of a right-hand side for states of length `n` with the fixed
parameter vector `args`: on a state of length `n` it returns a derivative
vector of length `n` (the shape contract of the spec). -/
def LenOK (f : List ℚ → ℚ → List ℚ → List ℚ) (args : List ℚ) (n : ℕ) : Prop :=
  ∀ y s, y.length = n → (f y s args).length = n

/-- Translation of `f_catalysis(y, t, kappa)`: the source allocates
`rhs = np.zeros((6,))` and fills the six components from `y[0..2]` and
`kappa[0..4]`.  Out-of-range indexing is modelled with default 0; every
statement below applies it to lists of the proper lengths, where `getD`
coincides with the source indexing.  The function is pure: it builds a fresh
output and never writes to `y`. -/
def f_catalysis (y : List ℚ) (t : ℚ) (kappa : List ℚ) : List ℚ :=
  [ -kappa.getD 0 0 * y.getD 0 0,
    kappa.getD 0 0 * y.getD 0 0
      - (kappa.getD 1 0 + kappa.getD 3 0 + kappa.getD 4 0) * y.getD 1 0,
    kappa.getD 1 0 * y.getD 1 0 - kappa.getD 2 0 * y.getD 2 0,
    kappa.getD 2 0 * y.getD 2 0,
    kappa.getD 3 0 * y.getD 1 0,
    kappa.getD 4 0 * y.getD 1 0 ]

/-- Instrumented copy of the first part of a `rk45` step: it performs the
same computations in the same order as `rk45StepGen` (with the actual
weights) and returns, next to the result, the number of evaluations of `f`
that have been performed by the time the step returns — in particular, the
number performed before a broadcast error is raised.  Used to settle where
in the step a shape mismatch surfaces. -/
def rk45StepCount (f : List ℚ → ℚ → List ℚ → List ℚ) (args : List ℚ)
    (y : List ℚ) (ti h : ℚ) : Option (List ℚ) × ℕ :=
  let k1 := smul h (f y ti args)
  match vadd y (smul c21 k1) with
  | none => (none, 1)
  | some s2 =>
  let k2 := smul h (f s2 (ti + c20 * h) args)
  match vadd y (smul c31 k1) with
  | none => (none, 2)
  | some s31 =>
  match vadd s31 (smul c32 k2) with
  | none => (none, 2)
  | some s3 =>
  let k3 := smul h (f s3 (ti + c30 * h) args)
  match vadd y (smul c41 k1) with
  | none => (none, 3)
  | some s41 =>
  match vadd s41 (smul c42 k2) with
  | none => (none, 3)
  | some s42 =>
  match vadd s42 (smul c43 k3) with
  | none => (none, 3)
  | some s4 =>
  let k4 := smul h (f s4 (ti + c40 * h) args)
  match vadd y (smul c51 k1) with
  | none => (none, 4)
  | some s51 =>
  match vadd s51 (smul c52 k2) with
  | none => (none, 4)
  | some s52 =>
  match vadd s52 (smul c53 k3) with
  | none => (none, 4)
  | some s53 =>
  match vadd s53 (smul c54 k4) with
  | none => (none, 4)
  | some s5 =>
  let k5 := smul h (f s5 (ti + h) args)
  match vadd y (smul c61 k1) with
  | none => (none, 5)
  | some s61 =>
  match vadd s61 (smul c62 k2) with
  | none => (none, 5)
  | some s62 =>
  match vadd s62 (smul c63 k3) with
  | none => (none, 5)
  | some s63 =>
  match vadd s63 (smul c64 k4) with
  | none => (none, 5)
  | some s64 =>
  match vadd s64 (smul c65 k5) with
  | none => (none, 5)
  | some s6 =>
  let k6 := smul h (f s6 (ti + c60 * h) args)
  match vadd y (smul a1 k1) with
  | none => (none, 6)
  | some u1 =>
  match vadd u1 (smul a3 k3) with
  | none => (none, 6)
  | some u3 =>
  match vadd u3 (smul a4 k4) with
  | none => (none, 6)
  | some u4 =>
  match vadd u4 (smul a5 k5) with
  | none => (none, 6)
  | some ynext =>
  match vadd y (smul b1 k1) with
  | none => (none, 6)
  | some v1 =>
  match vadd v1 (smul b3 k3) with
  | none => (none, 6)
  | some v3 =>
  match vadd v3 (smul b4 k4) with
  | none => (none, 6)
  | some v4 =>
  match vadd v4 (smul b5 k5) with
  | none => (none, 6)
  | some v5 =>
  match vadd v5 (smul b6 k6) with
  | none => (none, 6)
  | some _y5 =>
  (some ynext, 6)

/-- Truncation toward zero, the conversion NumPy applies when a float64
value is stored into an int64 array slot. -/
def ratTrunc (q : ℚ) : ℤ :=
  if 0 ≤ q then Int.floor q else Int.ceil q

/-- Componentwise truncation toward zero of a float row stored into an
integer row. -/
def truncEach (v : List ℚ) : List ℤ :=
  v.map ratTrunc

/-- Loop of `rk45` when `y0` has integer components: the source line
`y = np.array([y0] * n)` then allocates an integer-typed array, the stage
arithmetic still happens in float64 (the current integer row is upcast),
and the assignment `y[i+1] = ...` silently truncates each component toward
zero.  The fifth-order line stays in float and is discarded as before. -/
def rk45IntGo (f : List ℚ → ℚ → List ℚ → List ℚ) (args : List ℚ) :
    List ℤ → ℚ → List ℚ → Option (List (List ℤ))
  | y, _, [] => some [y]
  | y, tcur, tnext :: rest =>
    match rk45StepGen b1 b2 b3 b4 b5 b6 f args (y.map (fun z => (z : ℚ)))
        tcur (tnext - tcur) with
    | none => none
    | some ynextQ =>
      match rk45IntGo f args (truncEach ynextQ) tnext rest with
      | none => none
      | some tail => some (y :: tail)

/-- Behaviour of `rk45(f, y0, t, args)` when the supplied `y0` has integer
components, so that the trajectory array inherits an integer dtype. -/
def rk45Int (f : List ℚ → ℚ → List ℚ → List ℚ) (y0 : List ℤ) (t : List ℚ)
    (args : List ℚ) : Option (List (List ℤ)) :=
  match t with
  | [] => some []
  | t0 :: rest => rk45IntGo f args y0 t0 rest

/-- One iteration of the sampling loop of `plot_samples`: the five
`norm.rvs` outputs for sample `i` are `draw i 0 .. draw i 4` (the random
draws are abstracted as an oracle), the deterministic transform
`kappa = np.exp([xi1..xi5]) / 180` is applied with `expf` standing for the
real exponential (which has no exact rational counterpart), and `rk45` is
invoked with the resulting parameter vector. -/
def sampleTraj (expf : ℚ → ℚ) (draw : ℕ → Fin 5 → ℚ)
    (f : List ℚ → ℚ → List ℚ → List ℚ) (y0 : List ℚ) (t : List ℚ)
    (i : ℕ) : Option (List (List ℚ)) :=
  rk45 f y0 t (List.ofFn (fun j : Fin 5 => expf (draw i j) / 180))

/-- The Monte Carlo sampling loop of `plot_samples`, with the trajectory of
each sample collected in loop order (the source plots each trajectory; the
collection is the ensemble of the spec).  The loop body runs once per
element of `range num_samples`, and a failed integration aborts the whole
call (the Python exception propagates out of the loop). -/
def propagate (expf : ℚ → ℚ) (draw : ℕ → Fin 5 → ℚ)
    (f : List ℚ → ℚ → List ℚ → List ℚ) (y0 : List ℚ) (t : List ℚ)
    (numSamples : ℕ) : Option (List (List (List ℚ))) :=
  (List.range numSamples).mapM (sampleTraj expf draw f y0 t)

/-- Initial condition used by `compare_model_to_data` and `plot_samples`. -/
def y0cat : List ℚ :=
  [500, 0, 0, 0, 0, 0]

/-- Time grid `np.linspace(0, 180, 100)` used by `plot_samples`, idealised
to exact rationals. -/
def linspace100 : List ℚ :=
  List.ofFn (fun i : Fin 100 => 180 * (i : ℚ) / 99)

/-- The ensemble produced by `plot_samples(..., num_samples)`: the sampling
loop instantiated at the hard-wired right-hand side `f_catalysis`, initial
state `(500, 0, 0, 0, 0, 0)` and grid `np.linspace(0, 180, 100)`. -/
def plotSamplesEnsemble (expf : ℚ → ℚ) (draw : ℕ → Fin 5 → ℚ)
    (numSamples : ℕ) : Option (List (List (List ℚ))) :=
  propagate expf draw f_catalysis y0cat linspace100 numSamples

/-- Right-hand side with zero derivative in every component, used to
instantiate theorems on concrete inputs. -/
def fZero (y : List ℚ) (t : ℚ) (args : List ℚ) : List ℚ :=
  y.map (fun _ => 0)

/-- The full trajectory a successful `rk45` run returns, as a total
function: one row per grid point, row 0 the initial state, each later row
the `rk45StepR` advance of the previous one. -/
def rk45R (f : List ℚ → ℚ → List ℚ → List ℚ) (y0 : List ℚ) (t : List ℚ)
    (args : List ℚ) : List (List ℚ) :=
  match t with
  | [] => []
  | t0 :: rest => rk45GoR f args y0 t0 rest

lemma length_smul (c : ℚ) (v : List ℚ) : (smul c v).length = v.length := by
  simp [smul]

lemma length_addv (a b : List ℚ) :
    (addv a b).length = min a.length b.length := by
  simp [addv]

lemma vadd_eq_some {a b : List ℚ} (h : a.length = b.length) :
    vadd a b = some (addv a b) := by
  simp [vadd, addv, h]

lemma vadd_eq_none {a b : List ℚ} (h : ¬ a.length = b.length) :
    vadd a b = none := by
  simp [vadd, h]

lemma rk45StepGen_eq_total (B1 B2 B3 B4 B5 B6 : ℚ)
    {f : List ℚ → ℚ → List ℚ → List ℚ} {args : List ℚ} {n : ℕ}
    (hf : LenOK f args n) {y : List ℚ} (ti h : ℚ) (hy : y.length = n) :
    rk45StepGen B1 B2 B3 B4 B5 B6 f args y ti h =
      some (rk45StepR f args y ti h) := by
  have hf' : ∀ (z : List ℚ) (s : ℚ), z.length = n → (f z s args).length = n := hf
  simp only [rk45StepGen, rk45StepR]
  generalize hK1 : smul h (f y ti args) = K1
  have lK1 : K1.length = n := by rw [← hK1, length_smul]; exact hf' _ _ hy
  simp only [vadd_eq_some, length_addv, length_smul, min_self, hy, hf', lK1]
  generalize hK2 : smul h (f (addv y (smul c21 K1)) (ti + c20 * h) args) = K2
  have lK2 : K2.length = n := by
    rw [← hK2, length_smul]
    exact hf' _ _ (by simp [length_addv, length_smul, min_self, hy, lK1])
  simp only [vadd_eq_some, length_addv, length_smul, min_self, hy, hf', lK1,
    lK2]
  generalize hK3 :
    smul h (f (addv (addv y (smul c31 K1)) (smul c32 K2)) (ti + c30 * h)
      args) = K3
  have lK3 : K3.length = n := by
    rw [← hK3, length_smul]
    exact hf' _ _ (by simp [length_addv, length_smul, min_self, hy, lK1, lK2])
  simp only [vadd_eq_some, length_addv, length_smul, min_self, hy, hf', lK1,
    lK2, lK3]
  generalize hK4 :
    smul h (f (addv (addv (addv y (smul c41 K1)) (smul c42 K2)) (smul c43 K3))
      (ti + c40 * h) args) = K4
  have lK4 : K4.length = n := by
    rw [← hK4, length_smul]
    exact hf' _ _
      (by simp [length_addv, length_smul, min_self, hy, lK1, lK2, lK3])
  simp only [vadd_eq_some, length_addv, length_smul, min_self, hy, hf', lK1,
    lK2, lK3, lK4]
  generalize hK5 :
    smul h (f (addv (addv (addv (addv y (smul c51 K1)) (smul c52 K2))
      (smul c53 K3)) (smul c54 K4)) (ti + h) args) = K5
  have lK5 : K5.length = n := by
    rw [← hK5, length_smul]
    exact hf' _ _
      (by simp [length_addv, length_smul, min_self, hy, lK1, lK2, lK3, lK4])
  simp only [vadd_eq_some, length_addv, length_smul, min_self, hy, hf', lK1,
    lK2, lK3, lK4, lK5]

lemma length_rk45StepR {f : List ℚ → ℚ → List ℚ → List ℚ} {args : List ℚ}
    {n : ℕ} (hf : LenOK f args n) {y : List ℚ} (ti h : ℚ)
    (hy : y.length = n) : (rk45StepR f args y ti h).length = n := by
  have hf' : ∀ (z : List ℚ) (s : ℚ), z.length = n → (f z s args).length = n := hf
  simp only [rk45StepR]
  generalize hK1 : smul h (f y ti args) = K1
  have lK1 : K1.length = n := by rw [← hK1, length_smul]; exact hf' _ _ hy
  generalize hK2 : smul h (f (addv y (smul c21 K1)) (ti + c20 * h) args) = K2
  have lK2 : K2.length = n := by
    rw [← hK2, length_smul]
    exact hf' _ _ (by simp [length_addv, length_smul, min_self, hy, lK1])
  generalize hK3 :
    smul h (f (addv (addv y (smul c31 K1)) (smul c32 K2)) (ti + c30 * h)
      args) = K3
  have lK3 : K3.length = n := by
    rw [← hK3, length_smul]
    exact hf' _ _ (by simp [length_addv, length_smul, min_self, hy, lK1, lK2])
  generalize hK4 :
    smul h (f (addv (addv (addv y (smul c41 K1)) (smul c42 K2)) (smul c43 K3))
      (ti + c40 * h) args) = K4
  have lK4 : K4.length = n := by
    rw [← hK4, length_smul]
    exact hf' _ _
      (by simp [length_addv, length_smul, min_self, hy, lK1, lK2, lK3])
  generalize hK5 :
    smul h (f (addv (addv (addv (addv y (smul c51 K1)) (smul c52 K2))
      (smul c53 K3)) (smul c54 K4)) (ti + h) args) = K5
  have lK5 : K5.length = n := by
    rw [← hK5, length_smul]
    exact hf' _ _
      (by simp [length_addv, length_smul, min_self, hy, lK1, lK2, lK3, lK4])
  simp [length_addv, length_smul, min_self, hy, lK1, lK3, lK4, lK5]

lemma rk45TrimStep_eq_total {f : List ℚ → ℚ → List ℚ → List ℚ}
    {args : List ℚ} {n : ℕ} (hf : LenOK f args n) {y : List ℚ} (ti h : ℚ)
    (hy : y.length = n) :
    rk45TrimStep f args y ti h = some (rk45StepR f args y ti h) := by
  have hf' : ∀ (z : List ℚ) (s : ℚ), z.length = n → (f z s args).length = n := hf
  simp only [rk45TrimStep, rk45StepR]
  generalize hK1 : smul h (f y ti args) = K1
  have lK1 : K1.length = n := by rw [← hK1, length_smul]; exact hf' _ _ hy
  simp only [vadd_eq_some, length_addv, length_smul, min_self, hy, hf', lK1]
  generalize hK2 : smul h (f (addv y (smul c21 K1)) (ti + c20 * h) args) = K2
  have lK2 : K2.length = n := by
    rw [← hK2, length_smul]
    exact hf' _ _ (by simp [length_addv, length_smul, min_self, hy, lK1])
  simp only [vadd_eq_some, length_addv, length_smul, min_self, hy, hf', lK1,
    lK2]
  generalize hK3 :
    smul h (f (addv (addv y (smul c31 K1)) (smul c32 K2)) (ti + c30 * h)
      args) = K3
  have lK3 : K3.length = n := by
    rw [← hK3, length_smul]
    exact hf' _ _ (by simp [length_addv, length_smul, min_self, hy, lK1, lK2])
  simp only [vadd_eq_some, length_addv, length_smul, min_self, hy, hf', lK1,
    lK2, lK3]
  generalize hK4 :
    smul h (f (addv (addv (addv y (smul c41 K1)) (smul c42 K2)) (smul c43 K3))
      (ti + c40 * h) args) = K4
  have lK4 : K4.length = n := by
    rw [← hK4, length_smul]
    exact hf' _ _
      (by simp [length_addv, length_smul, min_self, hy, lK1, lK2, lK3])
  simp only [vadd_eq_some, length_addv, length_smul, min_self, hy, hf', lK1,
    lK2, lK3, lK4]

lemma rk45GoGen_eq_total (B1 B2 B3 B4 B5 B6 : ℚ)
    {f : List ℚ → ℚ → List ℚ → List ℚ} {args : List ℚ} {n : ℕ}
    (hf : LenOK f args n) (trest : List ℚ) :
    ∀ (y : List ℚ) (tcur : ℚ), y.length = n →
      rk45GoGen B1 B2 B3 B4 B5 B6 f args y tcur trest =
        some (rk45GoR f args y tcur trest) := by
  induction trest with
  | nil => intro y tcur hy; rfl
  | cons tnext rest ih =>
    intro y tcur hy
    simp only [rk45GoGen, rk45GoR,
      rk45StepGen_eq_total B1 B2 B3 B4 B5 B6 hf tcur (tnext - tcur) hy,
      ih (rk45StepR f args y tcur (tnext - tcur)) tnext
        (length_rk45StepR hf tcur (tnext - tcur) hy)]

lemma rk45TrimGo_eq_total {f : List ℚ → ℚ → List ℚ → List ℚ}
    {args : List ℚ} {n : ℕ} (hf : LenOK f args n) (trest : List ℚ) :
    ∀ (y : List ℚ) (tcur : ℚ), y.length = n →
      rk45TrimGo f args y tcur trest =
        some (rk45GoR f args y tcur trest) := by
  induction trest with
  | nil => intro y tcur hy; rfl
  | cons tnext rest ih =>
    intro y tcur hy
    simp only [rk45TrimGo, rk45GoR,
      rk45TrimStep_eq_total hf tcur (tnext - tcur) hy,
      ih (rk45StepR f args y tcur (tnext - tcur)) tnext
        (length_rk45StepR hf tcur (tnext - tcur) hy)]

lemma rk45Gen_eq_total (B1 B2 B3 B4 B5 B6 : ℚ)
    {f : List ℚ → ℚ → List ℚ → List ℚ} {args : List ℚ} {n : ℕ}
    (hf : LenOK f args n) {y0 : List ℚ} (t : List ℚ) (hy0 : y0.length = n) :
    rk45Gen B1 B2 B3 B4 B5 B6 f y0 t args = some (rk45R f y0 t args) := by
  cases t with
  | nil => rfl
  | cons t0 rest =>
    simpa only [rk45Gen, rk45R] using
      rk45GoGen_eq_total B1 B2 B3 B4 B5 B6 hf rest y0 t0 hy0

lemma rk45Trim_eq_total {f : List ℚ → ℚ → List ℚ → List ℚ} {args : List ℚ}
    {n : ℕ} (hf : LenOK f args n) {y0 : List ℚ} (t : List ℚ)
    (hy0 : y0.length = n) :
    rk45Trim f y0 t args = some (rk45R f y0 t args) := by
  cases t with
  | nil => rfl
  | cons t0 rest =>
    simpa only [rk45Trim, rk45R] using rk45TrimGo_eq_total hf rest y0 t0 hy0

lemma length_rk45GoR (f : List ℚ → ℚ → List ℚ → List ℚ) (args : List ℚ)
    (trest : List ℚ) : ∀ (y : List ℚ) (tcur : ℚ),
    (rk45GoR f args y tcur trest).length = trest.length + 1 := by
  induction trest with
  | nil => intro y tcur; rfl
  | cons tnext rest ih => intro y tcur; simp [rk45GoR, ih]

lemma rk45GoR_getD_zero (f : List ℚ → ℚ → List ℚ → List ℚ) (args : List ℚ)
    (trest : List ℚ) (y : List ℚ) (tcur : ℚ) :
    (rk45GoR f args y tcur trest).getD 0 [] = y := by
  cases trest <;> rfl

lemma length_rk45R (f : List ℚ → ℚ → List ℚ → List ℚ) (y0 : List ℚ)
    (t : List ℚ) (args : List ℚ) :
    (rk45R f y0 t args).length = t.length := by
  cases t with
  | nil => rfl
  | cons t0 rest => simp [rk45R, length_rk45GoR]

lemma rk45R_getD_zero (f : List ℚ → ℚ → List ℚ → List ℚ) (y0 : List ℚ)
    {t : List ℚ} (args : List ℚ) (ht : t ≠ []) :
    (rk45R f y0 t args).getD 0 [] = y0 := by
  cases t with
  | nil => exact absurd rfl ht
  | cons t0 rest => simpa [rk45R] using rk45GoR_getD_zero f args rest y0 t0

lemma rk45GoR_recurrence (f : List ℚ → ℚ → List ℚ → List ℚ) (args : List ℚ)
    (trest : List ℚ) : ∀ (y : List ℚ) (tcur : ℚ) (i : ℕ),
    i + 1 < trest.length + 1 →
      (rk45GoR f args y tcur trest).getD (i + 1) [] =
        rk45StepR f args ((rk45GoR f args y tcur trest).getD i [])
          ((tcur :: trest).getD i 0)
          ((tcur :: trest).getD (i + 1) 0 - (tcur :: trest).getD i 0) := by
  induction trest with
  | nil => intro y tcur i hi; simp at hi
  | cons tnext rest ih =>
    intro y tcur i hi
    cases i with
    | zero =>
      cases rest <;> simp [rk45GoR]
    | succ j =>
      have hj : j + 1 < rest.length + 1 := by
        simpa using Nat.lt_of_succ_lt_succ hi
      simpa [rk45GoR] using
        ih (rk45StepR f args y tcur (tnext - tcur)) tnext j hj

lemma rk45GoGen_some_head (B1 B2 B3 B4 B5 B6 : ℚ)
    {f : List ℚ → ℚ → List ℚ → List ℚ} {args y : List ℚ} {tcur : ℚ}
    {trest : List ℚ} {ys : List (List ℚ)}
    (hsome : rk45GoGen B1 B2 B3 B4 B5 B6 f args y tcur trest = some ys) :
    ys.getD 0 [] = y := by
  cases trest with
  | nil =>
    simp only [rk45GoGen, Option.some.injEq] at hsome
    rw [← hsome]
    rfl
  | cons tnext rest =>
    cases hstep : rk45StepGen B1 B2 B3 B4 B5 B6 f args y tcur
        (tnext - tcur) with
    | none =>
      simp only [rk45GoGen, hstep] at hsome
      exact Option.noConfusion hsome
    | some ynext =>
      cases hrec : rk45GoGen B1 B2 B3 B4 B5 B6 f args ynext tnext rest with
      | none =>
        simp only [rk45GoGen, hstep, hrec] at hsome
        exact Option.noConfusion hsome
      | some tail =>
        simp only [rk45GoGen, hstep, hrec, Option.some.injEq] at hsome
        subst hsome
        rfl

lemma mapM_eq_map_of_some {α β : Type} (g : α → Option β) (tr : α → β) :
    ∀ l : List α, (∀ a ∈ l, g a = some (tr a)) →
      l.mapM g = some (l.map tr) := by
  intro l
  induction l with
  | nil => intro _; rfl
  | cons a l ih =>
    intro hg
    rw [List.mapM_cons, hg a (List.mem_cons_self a l),
      ih (fun b hb => hg b (List.mem_cons_of_mem a hb))]
    rfl

lemma map_eq_replicate {α β : Type} (g : α → β) (b : β) (l : List α)
    (hg : ∀ a ∈ l, g a = b) : l.map g = List.replicate l.length b := by
  induction l with
  | nil => rfl
  | cons a l ih =>
    simp [List.replicate_succ, hg a (by simp),
      ih (fun x hx => hg x (by simp [hx]))]

/-- C2: for every valid call (time grid of length at least two), entry 0 of
the returned trajectory equals the supplied initial state exactly.  In the
source, `y = np.array([y0] * n)` initialises every row to `y0` and the loop
only ever assigns rows `1 .. n-1`, so row 0 is the unmodified copy of `y0`;
in the exact-rational model this is literal equality (the model has no
notion of drift, and the Lean embedding is pure, so no shared copy can be
mutated). -/
theorem rk45_entry_zero_eq_initial :
    ∀ (f : List ℚ → ℚ → List ℚ → List ℚ) (y0 : List ℚ) (t : List ℚ)
      (args : List ℚ) (ys : List (List ℚ)), 2 ≤ t.length →
      rk45 f y0 t args = some ys → ys.getD 0 [] = y0 := by
  intro f y0 t args ys ht hsome
  cases t with
  | nil => simp at ht
  | cons t0 rest =>
    exact rk45GoGen_some_head b1 b2 b3 b4 b5 b6
      (by simpa [rk45, rk45Gen] using hsome)

/-- Witness for C2 at a concrete input: the zero right-hand side on state
`[1]` over grid `[0, 1]` integrates to `[[1], [1]]`, and entry 0 is `[1]`. -/
theorem rk45_entry_zero_eq_initial_witness :
    2 ≤ ([(0 : ℚ), 1] : List ℚ).length ∧
      ([[(1 : ℚ)], [1]] : List (List ℚ)).getD 0 [] = [(1 : ℚ)] :=
  ⟨by decide,
    rk45_entry_zero_eq_initial fZero [1] [0, 1] [] [[1], [1]] (by decide)
      (by norm_num [rk45, rk45Gen, rk45GoGen, rk45StepGen, vadd, addv, smul,
        fZero, c20, c30, c40, c50, c60, c21, c31, c32, c41, c42, c43, c51,
        c52, c53, c54, c61, c62, c63, c64, c65, a1, a2, a3, a4, a5, b1, b2,
        b3, b4, b5, b6])⟩

/-- C3 (corrected): with a time grid of fewer than two points `rk45` does
not signal any error: the source computes `y = np.array([y0] * n)` and the
loop `for i in xrange(n - 1)` simply does not execute, so the call returns
an empty trajectory for an empty grid and the single-row trajectory `[y0]`
for a one-point grid. -/
theorem rk45_short_grid_silent :
    ∀ (f : List ℚ → ℚ → List ℚ → List ℚ) (y0 args : List ℚ),
      rk45 f y0 [] args = some [] ∧
        ∀ t0 : ℚ, rk45 f y0 [t0] args = some [y0] := by
  intro f y0 args
  exact ⟨rfl, fun t0 => rfl⟩

/-- Counterexample to C3 as stated: on the one-point grid `[0]` the
integrator returns the trajectory `[y0]` (a `some` value in the model, i.e.
a normal return), rather than signalling an error and returning no
trajectory. -/
theorem rk45_singleton_grid_counterexample :
    rk45 f_catalysis y0cat [0] [1, 1, 1, 1, 1] = some [y0cat] := rfl

/-- C4 (corrected): `rk45` performs no monotonicity (or any other) check on
the time grid: for every grid `t` whatsoever — increasing, constant or
decreasing — and every length-consistent right-hand side, it returns a
trajectory with one row per grid point, using the possibly zero or negative
steps `h = t[i+1] - t[i]` as they come. -/
theorem rk45_no_grid_monotonicity_check :
    ∀ (f : List ℚ → ℚ → List ℚ → List ℚ) (args y0 : List ℚ) (t : List ℚ)
      (n : ℕ), LenOK f args n → y0.length = n →
      ∃ ys, rk45 f y0 t args = some ys ∧ ys.length = t.length := by
  intro f args y0 t n hf hy0
  exact ⟨rk45R f y0 t args, rk45Gen_eq_total b1 b2 b3 b4 b5 b6 hf t hy0,
    length_rk45R f y0 t args⟩

/-- Witness for C4 at a concrete input with a strictly decreasing grid. -/
theorem rk45_no_grid_monotonicity_check_witness :
    LenOK fZero [] 1 ∧ ([(1 : ℚ)] : List ℚ).length = 1 ∧
      ∃ ys, rk45 fZero [1] [1, 0] [] = some ys ∧ ys.length = 2 := by
  have hLen : LenOK fZero [] 1 := fun y s hy => by simpa [fZero] using hy
  obtain ⟨ys, h1, h2⟩ :=
    rk45_no_grid_monotonicity_check fZero [] [1] [1, 0] 1 hLen rfl
  exact ⟨hLen, rfl, ys, h1, by simpa using h2⟩

/-- Counterexample to C4 as stated: integrating over the decreasing grid
`[1, 0]` silently produces the trajectory `[[1], [1]]` instead of
signalling a shape error. -/
theorem rk45_decreasing_grid_counterexample :
    rk45 fZero [1] [1, 0] [] = some [[1], [1]] := by
  norm_num [rk45, rk45Gen, rk45GoGen, rk45StepGen, vadd, addv, smul, fZero,
    c20, c30, c40, c50, c60, c21, c31, c32, c41, c42, c43, c51, c52, c53, c54,
    c61, c62, c63, c64, c65, a1, a2, a3, a4, a5, b1, b2, b3, b4, b5, b6]

/-- C5 (corrected): when `y0` and the vector returned by `f` disagree in
length, and neither length is 1 (with a length-1 operand NumPy broadcasts
instead of raising, so such calls are outside the mismatch-error region),
the error is raised and no trajectory (partial or otherwise) is returned —
but it is not detected eagerly: it surfaces inside the first loop
iteration, at the first elementwise addition `y[i] + c21 * k1`, after
`k1 = h * f(y[i], t[i], *args)` has already been computed (see the
counterexample for the instrumented count).  The two length-1 exclusion
hypotheses scope the statement to where the strict `vadd` model is
faithful to NumPy. -/
theorem rk45_length_mismatch_fails_in_first_step :
    ∀ (f : List ℚ → ℚ → List ℚ → List ℚ) (y0 args : List ℚ) (t0 t1 : ℚ)
      (rest : List ℚ), ¬ y0.length = (f y0 t0 args).length →
      ¬ y0.length = 1 → ¬ (f y0 t0 args).length = 1 →
      rk45 f y0 (t0 :: t1 :: rest) args = none := by
  intro f y0 args t0 t1 rest hmis hy1 hf1
  have h1 : vadd y0 (smul c21 (smul (t1 - t0) (f y0 t0 args))) = none :=
    vadd_eq_none (by simpa [length_smul] using hmis)
  simp [rk45, rk45Gen, rk45GoGen, rk45StepGen, h1]

/-- Witness for C5 at a concrete input: `f_catalysis` always returns six
components, so integrating a three-component state (neither length being
1, hence no broadcasting) fails with an error and no trajectory. -/
theorem rk45_length_mismatch_fails_in_first_step_witness :
    (¬ ([(1 : ℚ), 2, 3] : List ℚ).length =
        (f_catalysis [1, 2, 3] 0 [1, 1, 1, 1, 1]).length) ∧
      (¬ ([(1 : ℚ), 2, 3] : List ℚ).length = 1) ∧
      (¬ (f_catalysis [1, 2, 3] 0 [1, 1, 1, 1, 1]).length = 1) ∧
      rk45 f_catalysis [1, 2, 3] [0, 1] [1, 1, 1, 1, 1] = none :=
  ⟨by decide, by decide, by decide,
    rk45_length_mismatch_fails_in_first_step f_catalysis [1, 2, 3]
      [1, 1, 1, 1, 1] 0 1 [] (by decide) (by decide) (by decide)⟩

/-- Counterexample to the eager-detection part of C5: on the mismatched
input the instrumented step model records that one evaluation of `f` (the
`k1` stage, numeric stepping work, together with the scalar multiplication
by `h`) has already been performed when the broadcast error surfaces — the
count at failure is 1, not 0, so the mismatch is not detected before
numeric stepping work begins; the call still ends in an error with no
trajectory. -/
theorem rk45_mismatch_after_one_f_eval :
    rk45StepCount f_catalysis [1, 1, 1, 1, 1] [1, 2, 3] 0 1 = (none, 1) ∧
      rk45 f_catalysis [1, 2, 3] [0, 1] [1, 1, 1, 1, 1] = none := by
  constructor
  · decide
  · decide

/-- C1: for every valid call, every trajectory entry of index 1 or more is
obtained from the previous entry over `h = t[i+1] - t[i]` by the six-stage
Runge-Kutta-Fehlberg step (`k6` is evaluated but does not enter the
returned fourth-order combination), with the coefficient of `k2` zero (the
source omits the `a2` term) and the parameter vector `args` passed
unchanged to every stage evaluation of `f`.  The first conjunct ties the
embedded coefficients to the classical RKF45 Butcher tableau: the source
stores the tableau as 16-significant-digit decimal float literals, which
equal the classical fractions exactly wherever the fraction has a
terminating decimal expansion, and agree with them to within `10⁻¹⁵` (one
unit in the sixteenth significant digit) otherwise — deviations below the
resolution at which a binary64 program is idealised by exact real
arithmetic, so at the level of this model the step is the classical
combination `y + (25/216) k1 + (1408/2565) k3 + (2197/4104) k4 -
(1/5) k5`. -/
theorem rk45_entry_recurrence_classical_tableau :
    (c20 = 1 / 4 ∧ c21 = 1 / 4 ∧ c30 = 3 / 8 ∧ c31 = 3 / 32 ∧ c32 = 9 / 32 ∧
      |c40 - 12 / 13| ≤ 1 / 10 ^ 15 ∧ |c41 - 1932 / 2197| ≤ 1 / 10 ^ 15 ∧
      |c42 - (-7200 / 2197)| ≤ 1 / 10 ^ 15 ∧
      |c43 - 7296 / 2197| ≤ 1 / 10 ^ 15 ∧
      |c51 - 439 / 216| ≤ 1 / 10 ^ 15 ∧ c52 = -8 ∧
      |c53 - 3680 / 513| ≤ 1 / 10 ^ 15 ∧
      |c54 - (-845 / 4104)| ≤ 1 / 10 ^ 15 ∧ c60 = 1 / 2 ∧
      |c61 - (-8 / 27)| ≤ 1 / 10 ^ 15 ∧ c62 = 2 ∧
      |c63 - (-3544 / 2565)| ≤ 1 / 10 ^ 15 ∧
      |c64 - 1859 / 4104| ≤ 1 / 10 ^ 15 ∧ c65 = -(11 / 40) ∧
      |a1 - 25 / 216| ≤ 1 / 10 ^ 15 ∧ a2 = 0 ∧
      |a3 - 1408 / 2565| ≤ 1 / 10 ^ 15 ∧
      |a4 - 2197 / 4104| ≤ 1 / 10 ^ 15 ∧ a5 = -(1 / 5)) ∧
    ∀ (f : List ℚ → ℚ → List ℚ → List ℚ) (args y0 : List ℚ) (t : List ℚ)
      (n : ℕ), LenOK f args n → y0.length = n →
      ∃ ys, rk45 f y0 t args = some ys ∧ ys.length = t.length ∧
        ∀ i, i + 1 < t.length →
          ys.getD (i + 1) [] =
            (let y := ys.getD i [];
             let ti := t.getD i 0;
             let h := t.getD (i + 1) 0 - ti;
             let k1 := smul h (f y ti args);
             let k2 := smul h (f (addv y (smul c21 k1)) (ti + c20 * h) args);
             let k3 := smul h (f (addv (addv y (smul c31 k1)) (smul c32 k2))
               (ti + c30 * h) args);
             let k4 := smul h (f (addv (addv (addv y (smul c41 k1))
               (smul c42 k2)) (smul c43 k3)) (ti + c40 * h) args);
             let k5 := smul h (f (addv (addv (addv (addv y (smul c51 k1))
               (smul c52 k2)) (smul c53 k3)) (smul c54 k4)) (ti + h) args);
             addv (addv (addv (addv y (smul a1 k1)) (smul a3 k3))
               (smul a4 k4)) (smul a5 k5)) := by
  constructor
  · norm_num [c20, c21, c30, c31, c32, c40, c41, c42, c43, c51, c52, c53,
      c54, c60, c61, c62, c63, c64, c65, a1, a2, a3, a4, a5, abs_le]
  intro f args y0 t n hf hy0
  refine ⟨rk45R f y0 t args, rk45Gen_eq_total b1 b2 b3 b4 b5 b6 hf t hy0,
    length_rk45R f y0 t args, ?_⟩
  intro i hi
  cases t with
  | nil => simp at hi
  | cons t0 rest =>
    have h := rk45GoR_recurrence f args rest y0 t0 i (by simpa using hi)
    simp only [rk45R]
    exact h

/-- Witness for C1 at a concrete input: the zero right-hand side on `[1]`
over the grid `[0, 1]`. -/
theorem rk45_entry_recurrence_classical_tableau_witness :
    LenOK fZero [] 1 ∧ ([(1 : ℚ)] : List ℚ).length = 1 ∧
      ∃ ys, rk45 fZero [1] [0, 1] [] = some ys ∧ ys.length = 2 := by
  have hLen : LenOK fZero [] 1 := fun y s hy => by simpa [fZero] using hy
  obtain ⟨ys, h1, h2, _⟩ :=
    rk45_entry_recurrence_classical_tableau.2 fZero [] [1] [0, 1] 1 hLen rfl
  exact ⟨hLen, rfl, ys, h1, by simpa using h2⟩

/-- C6 (corrected): called with `num_samples` below one, the sampling loop
of `plot_samples` executes zero iterations (`xrange(0)` is empty) and the
call completes normally with an empty ensemble — no error is signalled. -/
theorem propagate_zero_samples_empty :
    ∀ (expf : ℚ → ℚ) (draw : ℕ → Fin 5 → ℚ)
      (f : List ℚ → ℚ → List ℚ → List ℚ) (y0 t : List ℚ),
      propagate expf draw f y0 t 0 = some [] := by
  intro expf draw f y0 t
  rfl

/-- Counterexample to C6 as stated: `plot_samples` itself, with
`num_samples = 0`, returns the empty ensemble as a normal (`some`) value
instead of signalling an error. -/
theorem plot_samples_zero_counterexample :
    plotSamplesEnsemble (fun x => x) (fun _ _ => 0) 0 = some [] := rfl

/-- C7: the fifth-order estimate is dead code.  For every valid call the
integrator output is unchanged if the `y5` line is removed
(`rk45Trim`), and it does not depend on the values of the `b1 .. b6`
weight row at all (`rk45` itself is `rk45Gen` applied to the source
weights `b1 .. b6`).  No step is retried, rejected or subdivided: both
integrators take exactly one step per grid interval by construction. -/
theorem rk45_fifth_order_estimate_unused :
    ∀ (f : List ℚ → ℚ → List ℚ → List ℚ) (args y0 : List ℚ) (t : List ℚ)
      (n : ℕ), LenOK f args n → y0.length = n →
      (∀ B1 B2 B3 B4 B5 B6 : ℚ,
        rk45Gen B1 B2 B3 B4 B5 B6 f y0 t args = rk45Trim f y0 t args) ∧
        rk45 f y0 t args = rk45Trim f y0 t args := by
  intro f args y0 t n hf hy0
  constructor
  · intro B1 B2 B3 B4 B5 B6
    rw [rk45Gen_eq_total B1 B2 B3 B4 B5 B6 hf t hy0,
      rk45Trim_eq_total hf t hy0]
  · show rk45Gen b1 b2 b3 b4 b5 b6 f y0 t args = rk45Trim f y0 t args
    rw [rk45Gen_eq_total b1 b2 b3 b4 b5 b6 hf t hy0,
      rk45Trim_eq_total hf t hy0]

/-- Witness for C7 at a concrete input and an arbitrary concrete weight
row `1 .. 6`. -/
theorem rk45_fifth_order_estimate_unused_witness :
    LenOK fZero [] 1 ∧ ([(1 : ℚ)] : List ℚ).length = 1 ∧
      rk45Gen 1 2 3 4 5 6 fZero [1] [0, 1] [] =
        rk45Trim fZero [1] [0, 1] [] := by
  have hLen : LenOK fZero [] 1 := fun y s hy => by simpa [fZero] using hy
  exact ⟨hLen, rfl,
    (rk45_fifth_order_estimate_unused fZero [] [1] [0, 1] 1 hLen rfl).1
      1 2 3 4 5 6⟩

/-- C8: `f_catalysis` computes exactly the stated linear dynamics: on a
six-component state and five-component rate vector it returns the
derivative vector
`[-k1 y0, k1 y0 - (k2+k4+k5) y1, k2 y1 - k3 y2, k3 y2, k4 y1, k5 y1]`.
Purity and non-mutation hold by construction in the embedding and match
the source, which writes only into the freshly allocated `rhs` array. -/
theorem f_catalysis_formula :
    ∀ (u0 u1 u2 u3 u4 u5 k1 k2 k3 k4 k5 t : ℚ),
      f_catalysis [u0, u1, u2, u3, u4, u5] t [k1, k2, k3, k4, k5] =
        [-k1 * u0,
         k1 * u0 - (k2 + k4 + k5) * u1,
         k2 * u1 - k3 * u2,
         k3 * u2,
         k4 * u1,
         k5 * u1] := by
  intro u0 u1 u2 u3 u4 u5 k1 k2 k3 k4 k5 t
  rfl

/-- C9: for every sample count `N` at least 1 and valid time grid, the
sampling loop produces exactly `N` trajectories, each with one state row
per grid point and the initial condition as entry zero. -/
theorem propagate_ensemble_shape :
    ∀ (expf : ℚ → ℚ) (draw : ℕ → Fin 5 → ℚ)
      (f : List ℚ → ℚ → List ℚ → List ℚ) (y0 : List ℚ) (t : List ℚ)
      (n N : ℕ), (∀ args : List ℚ, LenOK f args n) → y0.length = n →
      1 ≤ N → 2 ≤ t.length →
      ∃ ens, propagate expf draw f y0 t N = some ens ∧ ens.length = N ∧
        ens.map List.length = List.replicate N t.length ∧
        ens.map (fun tr => tr.getD 0 []) = List.replicate N y0 := by
  intro expf draw f y0 t n N hf hy0 hN ht
  have ht' : t ≠ [] := by
    intro hnil
    rw [hnil] at ht
    simp at ht
  refine ⟨(List.range N).map (fun i =>
      rk45R f y0 t (List.ofFn (fun j : Fin 5 => expf (draw i j) / 180))),
    ?_, ?_, ?_, ?_⟩
  · exact mapM_eq_map_of_some _ _ (List.range N)
      (fun i _ => rk45Gen_eq_total b1 b2 b3 b4 b5 b6 (hf _) t hy0)
  · simp
  · rw [List.map_map]
    have h := map_eq_replicate
      (List.length ∘ fun i =>
        rk45R f y0 t (List.ofFn (fun j : Fin 5 => expf (draw i j) / 180)))
      t.length (List.range N) (fun i _ => length_rk45R f y0 t _)
    simpa using h
  · rw [List.map_map]
    have h := map_eq_replicate
      ((fun tr => tr.getD 0 []) ∘ fun i =>
        rk45R f y0 t (List.ofFn (fun j : Fin 5 => expf (draw i j) / 180)))
      y0 (List.range N) (fun i _ => rk45R_getD_zero f y0 _ ht')
    simpa using h

/-- Witness for C9 at a concrete input: one sample of the catalysis model
over the two-point grid `[0, 1]`. -/
theorem propagate_ensemble_shape_witness :
    (∀ args : List ℚ, LenOK f_catalysis args 6) ∧ y0cat.length = 6 ∧
      1 ≤ 1 ∧ 2 ≤ ([(0 : ℚ), 1] : List ℚ).length ∧
      ∃ ens, propagate (fun x => x) (fun _ _ => 0) f_catalysis y0cat [0, 1] 1 =
          some ens ∧ ens.length = 1 := by
  have hf : ∀ args : List ℚ, LenOK f_catalysis args 6 :=
    fun args y s hy => rfl
  obtain ⟨ens, h1, h2, _, _⟩ :=
    propagate_ensemble_shape (fun x => x) (fun _ _ => 0) f_catalysis y0cat
      [0, 1] 6 1 hf rfl (by decide) (by decide)
  exact ⟨hf, rfl, by decide, by decide, ens, h1, h2⟩

/-- C10: when `y0` is supplied with integer components the trajectory
array inherits the integer dtype, every step result is truncated toward
zero on assignment, and no error is signalled — so the returned trajectory
can differ from the real-arithmetic fourth-order recurrence (which `rk45`
follows when `y0` has real components, see the C1 theorem).  Concretely:
for the catalysis right-hand side with rate vector `[1, 0, 0, 0, 0]`,
integer initial state `[500, 0, 0, 0, 0, 0]` and grid `[0, 1]`, the
integer-dtype run completes normally (`isSome`) and its trajectory, cast
back to rationals, is not the trajectory of the real-arithmetic run. -/
theorem rk45_integer_dtype_truncates :
    (rk45Int f_catalysis [500, 0, 0, 0, 0, 0] [0, 1] [1, 0, 0, 0, 0]).isSome
        = true ∧
      Option.map (List.map (List.map (fun z : ℤ => (z : ℚ))))
          (rk45Int f_catalysis [500, 0, 0, 0, 0, 0] [0, 1] [1, 0, 0, 0, 0]) ≠
        rk45 f_catalysis y0cat [0, 1] [1, 0, 0, 0, 0] := by
  constructor
  · norm_num [rk45Int, rk45IntGo, rk45StepGen, vadd, addv, smul, f_catalysis,
      truncEach, ratTrunc, y0cat,
      c20, c30, c40, c50, c60, c21, c31, c32, c41, c42, c43, c51, c52, c53,
      c54, c61, c62, c63, c64, c65, a1, a2, a3, a4, a5, b1, b2, b3, b4, b5,
      b6]
  · norm_num [rk45, rk45Gen, rk45GoGen, rk45Int, rk45IntGo, rk45StepGen,
      vadd, addv, smul, f_catalysis, truncEach, ratTrunc, y0cat,
      c20, c30, c40, c50, c60, c21, c31, c32, c41, c42, c43, c51, c52, c53,
      c54, c61, c62, c63, c64, c65, a1, a2, a3, a4, a5, b1, b2, b3, b4, b5,
      b6]

end Handout01
